import Mathlib

/-!
Verification development for the `whatsapp-connect` conversation service.

The definitions below are a shallow embedding of the Python sources:
  * `src/models.py`            — data model (`ConversationState`, `CollectedData`,
                                 `ConversationStateData`, backend response models),
  * `src/conversation_flow.py` — the conversation state machine
                                 (`ConversationFlowHandler`),
  * `src/state_store.py`       — the resilient `ConversationStateStore`,
  * `src/backend_client.py`    — the SSE stream accumulator of
                                 `BackendClient.query_assistant`,
  * `src/message_templates.py` — lookup tables used by the flow.

Modelling conventions:
  * Side effects of one `handle_message` call are reified as a list of
    `Effect` events, in the order the Python code performs them: outbound
    sends, backend calls, and the writes to the per-phone state record
    (`state_store.set` / `state_store.delete`).  The persisted record for
    the one phone in play is an `Option ConversationStateData`; replaying
    the write events over it gives the stored record after the call.
  * Outbound message bodies are abstracted to the identity of the template
    being rendered (`MsgKind`); no claim depends on the rendered text.
  * The remote backend (`backend_client`) and the `dateutil` natural
    language date parse are external collaborators; they are passed in as
    an `Env` of response functions, an exception being modelled as
    `Except.error ()`.
  * Python `str.lower`/`str.strip` are modelled on their ASCII behaviour
    (all phrase tables involved are ASCII or are compared by equality).
  * Machine integers do not occur: the Python ints involved (weeks,
    counters, dates) are arbitrary precision, modelled as `Nat`.
-/

/-! ## Data model (src/models.py) -/

/-- Possible states in the conversation flow (`ConversationState` in
`src/models.py`), in the declared order. -/
inductive ConversationState
  | NEW
  | LANGUAGE_SELECT
  | ASK_NAME
  | ASK_DOB
  | ASK_GESTATIONAL
  | ASK_GESTATIONAL_WEEKS
  | ASSESSMENT
  | COMPLETED
  | ABANDONED
  deriving DecidableEq, Repr

/-- Position of a stage in the declared stage order. -/
def ConversationState.rank : ConversationState → Nat
  | .NEW => 0
  | .LANGUAGE_SELECT => 1
  | .ASK_NAME => 2
  | .ASK_DOB => 3
  | .ASK_GESTATIONAL => 4
  | .ASK_GESTATIONAL_WEEKS => 5
  | .ASSESSMENT => 6
  | .COMPLETED => 7
  | .ABANDONED => 8

/-- Data collected during session initialization (`CollectedData`). -/
structure CollectedData where
  locale : Option String := none
  child_name : Option String := none
  dob : Option String := none
  is_premature : Option Bool := none
  gestational_weeks : Option Nat := none
  deriving DecidableEq, Repr

/-- Complete conversation state stored per phone (`ConversationStateData`).
`last_message_at` is a timestamp, modelled as an abstract `Nat` clock. -/
structure ConversationStateData where
  current_step : ConversationState
  collected_data : CollectedData := {}
  session_id : Option String := none
  questions_asked : Nat := 0
  last_message_at : Nat
  last_question_id : Option String := none
  deriving DecidableEq, Repr

/-- Response of the backend `session/start` endpoint
(`BackendSessionStartResponse`).  Only `session_id` is consumed by the
flow; the age fields of the Python model are floats that feed rendered
message text only, which is abstracted away. -/
structure BackendSessionStartResponse where
  session_id : String
  deriving DecidableEq, Repr

/-- Message from the backend assistant (`BackendAssistantMessage`).
`metadata` is an opaque JSON blob, modelled as an uninterpreted string. -/
structure BackendAssistantMessage where
  content : String
  role : String := "assistant"
  is_final : Bool := false
  metadata : Option String := none
  deriving DecidableEq, Repr

/-- Response of the backend `session/close` endpoint
(`BackendSessionCloseResponse`); `total_time_seconds` is a float that the
flow never reads and is omitted. -/
structure BackendSessionCloseResponse where
  message : String
  total_questions : Nat
  domains_assessed : List String
  deriving DecidableEq, Repr

/-- The fields of the `results` payload dictionary that the flow reads
(besides `age_months`, a float feeding rendered text only). -/
structure ResultsSummary where
  using_corrected_age : Bool := false
  overall_status : String := "On track"
  deriving DecidableEq, Repr

/-! ## Python string helpers

All helpers recurse structurally over the character list of the string so
that concrete instances evaluate inside the kernel. -/

/-- Python `str.lower()` (ASCII behaviour). -/
def pyLower (s : String) : String := String.mk (s.toList.map Char.toLower)

def trimChars (cs : List Char) : List Char :=
  ((cs.dropWhile Char.isWhitespace).reverse.dropWhile Char.isWhitespace).reverse

/-- Python `str.strip()` (ASCII whitespace). -/
def pyStrip (s : String) : String := String.mk (trimChars s.toList)

def listHasInfix (hay needle : List Char) : Bool :=
  match hay with
  | [] => needle.isEmpty
  | _ :: t => needle.isPrefixOf hay || listHasInfix t needle

/-- Python `needle in hay` on strings. -/
def strContains (hay needle : String) : Bool :=
  listHasInfix hay.toList needle.toList

/-- Python `x or "dflt"` for an optional string (both `None` and the empty
string are falsy). -/
def pyOr (x : Option String) (dflt : String) : String :=
  match x with
  | none => dflt
  | some s => if s = "" then dflt else s

/-! ## Phrase tables (src/message_templates.py) -/

/-- `LANGUAGE_CODE_MAP`, in source order. -/
def LANGUAGE_CODE_MAP : List (String × String) :=
  [("english", "en"), ("hindi", "hi"), ("marathi", "mr")]

/-- `ANSWER_CODE_MAP`, in source order. -/
def ANSWER_CODE_MAP : List (String × String) :=
  [("yes", "yes"), ("sometimes", "sometimes"), ("no", "no"), ("not sure", "not_sure"),
   ("हां", "yes"), ("कभी-कभी", "sometimes"), ("नहीं", "no"), ("निश्चित नहीं", "not_sure"),
   ("होय", "yes"), ("कधीकधी", "sometimes"), ("नाही", "no"), ("खात्री नाही", "not_sure")]

/-- Exact lookup in an ordered key/value table (Python `dict.get`). -/
def lookupExact (table : List (String × String)) (k : String) : Option String :=
  match table.find? (fun kv => kv.fst = k) with
  | some kv => some kv.snd
  | none => none

/-- Locale resolution of `handle_language_selection`: exact match, then
first key contained in the message, then default `"en"`. -/
def resolveLocale (message_lower : String) : String :=
  match lookupExact LANGUAGE_CODE_MAP message_lower with
  | some l => l
  | none =>
    match LANGUAGE_CODE_MAP.find? (fun kv => strContains message_lower kv.fst) with
    | some kv => kv.snd
    | none => "en"

/-- Answer resolution of `handle_assessment_answer`: exact match, then
first bidirectional substring match in table order. -/
def resolveAnswerCode (answer_text_lower : String) : Option String :=
  match lookupExact ANSWER_CODE_MAP answer_text_lower with
  | some c => some c
  | none =>
    match ANSWER_CODE_MAP.find? (fun kv =>
        strContains answer_text_lower kv.fst || strContains kv.fst answer_text_lower) with
    | some kv => some kv.snd
    | none => none

/-- The restart phrase set of `handle_message`. -/
def RESTART_COMMANDS : List String := ["restart", "start over", "new"]

/-- The help phrase set of `handle_message`. -/
def HELP_COMMANDS : List String := ["help", "info"]

/-- The affirmative phrase set of `handle_gestational_question`.  The last
two entries reproduce the exact bytes present in the source file (they are
mojibake of Devanagari yes-words). -/
def YES_PHRASES : List String := ["yes", "y", "9>\x02", "9K/"]

/-! ## Date parsing (`ConversationFlowHandler.parse_date`) -/

/-- A calendar date as produced by a successful parse. -/
structure Date where
  year : Nat
  month : Nat
  day : Nat
  deriving DecidableEq, Repr

def toNatDigits (cs : List Char) : Nat :=
  cs.foldl (fun acc c => acc * 10 + (c.toNat - 48)) 0

def isDigitSeq (cs : List Char) : Bool :=
  !cs.isEmpty && cs.all Char.isDigit

/-- Split a character list on a separator character (the formats handed to
`strptime` all use a single-character separator). -/
def splitOnChar (sep : Char) : List Char → List (List Char)
  | [] => [[]]
  | c :: rest =>
    match splitOnChar sep rest with
    | [] => if c = sep then [[], []] else [[c]]
    | h :: t => if c = sep then [] :: h :: t else (c :: h) :: t

/-- CPython `strptime` field `%d`: `3[01]|[12]\d|0[1-9]|[1-9]| [1-9]`. -/
def matchDay (p : List Char) : Option Nat :=
  match p with
  | [' ', c] =>
    if c.isDigit then
      let v := c.toNat - 48
      if 1 ≤ v && v ≤ 9 then some v else none
    else none
  | _ =>
    if isDigitSeq p && p.length ≤ 2 then
      let v := toNatDigits p
      if 1 ≤ v && v ≤ 31 then some v else none
    else none

/-- CPython `strptime` field `%m`: `1[0-2]|0[1-9]|[1-9]`. -/
def matchMonth (p : List Char) : Option Nat :=
  if isDigitSeq p && p.length ≤ 2 then
    let v := toNatDigits p
    if 1 ≤ v && v ≤ 12 then some v else none
  else none

/-- CPython `strptime` field `%Y`: exactly four digits; a year below
`datetime.MINYEAR = 1` raises and so fails the format. -/
def matchYear (p : List Char) : Option Nat :=
  if isDigitSeq p && p.length = 4 then
    let v := toNatDigits p
    if 1 ≤ v then some v else none
  else none

def isLeapYear (y : Nat) : Bool :=
  y % 4 = 0 && (y % 100 ≠ 0 || y % 400 = 0)

def daysInMonth (y m : Nat) : Nat :=
  if m = 2 then (if isLeapYear y then 29 else 28)
  else if m = 4 || m = 6 || m = 9 || m = 11 then 30
  else 31

/-- `datetime` day-of-month validation performed by `strptime`. -/
def mkValidDate (y m d : Nat) : Option Date :=
  if 1 ≤ d && d ≤ daysInMonth y m then some ⟨y, m, d⟩ else none

/-- `strptime` against `"%d<sep>%m<sep>%Y"`. -/
def matchDMY (sep : Char) (s : String) : Option Date :=
  match splitOnChar sep s.toList with
  | [dp, mp, yp] =>
    match matchDay dp, matchMonth mp, matchYear yp with
    | some d, some m, some y => mkValidDate y m d
    | _, _, _ => none
  | _ => none

/-- `strptime` against `"%Y-%m-%d"`. -/
def matchYMD (sep : Char) (s : String) : Option Date :=
  match splitOnChar sep s.toList with
  | [yp, mp, dp] =>
    match matchYear yp, matchMonth mp, matchDay dp with
    | some y, some m, some d => mkValidDate y m d
    | _, _, _ => none
  | _ => none

def natPad (width n : Nat) : String :=
  let digits := toString n
  let pad := width - digits.length
  String.mk (List.replicate pad '0') ++ digits

/-- `datetime.strftime("%Y-%m-%d")`. -/
def renderISO (d : Date) : String :=
  natPad 4 d.year ++ "-" ++ natPad 2 d.month ++ "-" ++ natPad 2 d.day

/-- The prioritized `strptime` loop of `parse_date`, applied to the
stripped input: `%d/%m/%Y`, `%d-%m-%Y`, `%d.%m.%Y`, `%Y-%m-%d`. -/
def try_formats (s : String) : Option Date :=
  match matchDMY '/' s with
  | some d => some d
  | none =>
    match matchDMY '-' s with
    | some d => some d
    | none =>
      match matchDMY '.' s with
      | some d => some d
      | none => matchYMD '-' s

/-- `ConversationFlowHandler.parse_date`.  `dateutil_parse` stands for the
external `dateutil.parser.parse(date_str, dayfirst=True)` fallback, which
receives the unstripped input; `none` models a raised exception. -/
def parse_date (dateutil_parse : String → Option Date) (date_str : String) : Option String :=
  match try_formats (pyStrip date_str) with
  | some d => some (renderISO d)
  | none => (dateutil_parse date_str).map renderISO

/-! ## Gestational weeks extraction (`handle_gestational_weeks`) -/

/-- First maximal run of decimal digits in the text
(`re.findall(r'\d+', text)[0]`). -/
def firstDigitRun : List Char → Option (List Char)
  | [] => none
  | c :: cs =>
    if c.isDigit then some (c :: cs.takeWhile Char.isDigit)
    else firstDigitRun cs

/-- `int(re.findall(r'\d+', message_text)[0])`; `none` is the
`IndexError` taken when no digits occur. -/
def extract_weeks (message_text : String) : Option Nat :=
  (firstDigitRun message_text.toList).map toNatDigits

/-! ## Effects of one `handle_message` call -/

/-- Identity of an outbound message (template being rendered).  The
rendered body and the localization are not modelled. -/
inductive MsgKind
  | welcome
  | askName
  | askDob
  | invalidDob
  | askGestational
  | askGestationalWeeks
  | invalidGestationalWeeks
  | startingAssessment
  | question (number : Nat) (content : String)
  | selectOption
  | assessmentComplete
  | alreadyComplete
  | helpMessage
  | errorMessage
  deriving DecidableEq, Repr

/-- One observable action of the handler, in program order: an outbound
send, a backend call, or a write to the stored record of this phone. -/
inductive Effect
  | send (m : MsgKind)
  | callStartSession (child_name : Option String) (dob : Option String)
      (gestational_weeks : Option Nat) (locale : String)
  | callQueryAssistant (session_id : Option String) (user_message : String)
      (answer_code : Option String)
  | callCloseSession (session_id : Option String)
  | callGetResults (session_id : Option String)
  | setState (s : ConversationStateData)
  | delState
  deriving DecidableEq, Repr

/-- External collaborators: the backend endpoints (an `Except.error ()`
models a raised exception / HTTP failure) and the `dateutil` fallback
parse. -/
structure Env where
  start_session : Option String → Option String → Option Nat → String →
    Except Unit BackendSessionStartResponse
  query_assistant : Option String → String → Option String →
    Except Unit BackendAssistantMessage
  close_session : Option String → Except Unit BackendSessionCloseResponse
  get_results : Option String → Except Unit ResultsSummary
  dateutil_parse : String → Option Date

/-! ## Conversation flow (src/conversation_flow.py) -/

/-- `save_state`: persist the record with `last_message_at` refreshed. -/
def save_state (now : Nat) (s : ConversationStateData) : Effect :=
  .setState { s with last_message_at := now }

/-- The fresh record created by `get_or_create_state`. -/
def fresh_state (now : Nat) : ConversationStateData :=
  { current_step := .NEW, last_message_at := now }

/-- `handle_new_user`. -/
def handle_new_user (now : Nat) (s : ConversationStateData) : List Effect :=
  [.send .welcome, save_state now { s with current_step := .LANGUAGE_SELECT }]

/-- `handle_language_selection`. -/
def handle_language_selection (now : Nat) (message_text : String)
    (s : ConversationStateData) : List Effect :=
  let locale := resolveLocale (pyStrip (pyLower message_text))
  let s := { s with collected_data := { s.collected_data with locale := some locale } }
  [.send .askName, save_state now { s with current_step := .ASK_NAME }]

/-- `handle_name_input`. -/
def handle_name_input (now : Nat) (message_text : String)
    (s : ConversationStateData) : List Effect :=
  let child_name := pyStrip message_text
  let s := { s with collected_data := { s.collected_data with child_name := some child_name } }
  [.send .askDob, save_state now { s with current_step := .ASK_DOB }]

/-- `start_assessment`. -/
def start_assessment (env : Env) (now : Nat) (s : ConversationStateData) : List Effect :=
  let cn := s.collected_data.child_name
  let dob := s.collected_data.dob
  let gw := s.collected_data.gestational_weeks
  let locale := pyOr s.collected_data.locale "en"
  .callStartSession cn dob gw locale ::
  match env.start_session cn dob gw locale with
  | .error _ => [.send .errorMessage]
  | .ok resp =>
    let s := { s with session_id := some resp.session_id }
    .send .startingAssessment ::
    .callQueryAssistant (some resp.session_id) "Start assessment" none ::
    match env.query_assistant (some resp.session_id) "Start assessment" none with
    | .error _ => [.send .errorMessage]
    | .ok am =>
      [.send (.question (s.questions_asked + 1) am.content),
       save_state now { s with current_step := .ASSESSMENT,
                               questions_asked := s.questions_asked + 1 }]

/-- `handle_dob_input`. -/
def handle_dob_input (env : Env) (now : Nat) (message_text : String)
    (s : ConversationStateData) : List Effect :=
  match parse_date env.dateutil_parse message_text with
  | none => [.send .invalidDob]
  | some dob_iso =>
    let s := { s with collected_data := { s.collected_data with dob := some dob_iso } }
    [.send .askGestational, save_state now { s with current_step := .ASK_GESTATIONAL }]

/-- `handle_gestational_question`. -/
def handle_gestational_question (env : Env) (now : Nat) (message_text : String)
    (s : ConversationStateData) : List Effect :=
  let message_lower := pyStrip (pyLower message_text)
  if YES_PHRASES.contains message_lower then
    let s := { s with collected_data := { s.collected_data with is_premature := some true } }
    [.send .askGestationalWeeks,
     save_state now { s with current_step := .ASK_GESTATIONAL_WEEKS }]
  else
    let s := { s with collected_data :=
      { s.collected_data with is_premature := some false, gestational_weeks := none } }
    start_assessment env now s

/-- `handle_gestational_weeks`. -/
def handle_gestational_weeks (env : Env) (now : Nat) (message_text : String)
    (s : ConversationStateData) : List Effect :=
  match extract_weeks message_text with
  | none => [.send .invalidGestationalWeeks]
  | some weeks =>
    if 24 ≤ weeks && weeks ≤ 42 then
      start_assessment env now
        { s with collected_data :=
          { s.collected_data with gestational_weeks := some weeks } }
    else
      [.send .invalidGestationalWeeks]

/-- `complete_assessment`. -/
def complete_assessment (env : Env) (now : Nat) (s : ConversationStateData) : List Effect :=
  .callCloseSession s.session_id ::
  match env.close_session s.session_id with
  | .error _ => [.send .errorMessage]
  | .ok _close =>
    .callGetResults s.session_id ::
    match env.get_results s.session_id with
    | .error _ => [.send .errorMessage]
    | .ok _results =>
      [.send .assessmentComplete, save_state now { s with current_step := .COMPLETED }]

/-- `handle_assessment_answer`. -/
def handle_assessment_answer (env : Env) (now : Nat) (message_text : String)
    (s : ConversationStateData) : List Effect :=
  match resolveAnswerCode (pyStrip (pyLower message_text)) with
  | none => [.send .selectOption]
  | some answer_code =>
    .callQueryAssistant s.session_id message_text (some answer_code) ::
    match env.query_assistant s.session_id message_text (some answer_code) with
    | .error _ => [.send .errorMessage]
    | .ok am =>
      if am.is_final then
        complete_assessment env now s
      else
        [.send (.question (s.questions_asked + 1) am.content),
         save_state now { s with questions_asked := s.questions_asked + 1 }]

/-- `handle_completed_session`. -/
def handle_completed_session (_s : ConversationStateData) : List Effect :=
  [.send .alreadyComplete]

/-- `restart_conversation`: clear the record, recreate it at `NEW`, then
run the `NEW` handler (which sends the welcome and advances). -/
def restart_conversation (now : Nat) : List Effect :=
  .delState :: .setState (fresh_state now) :: handle_new_user now (fresh_state now)

/-- The per-state routing block of `handle_message`. -/
def dispatch (env : Env) (now : Nat) (message_text : String)
    (s : ConversationStateData) : List Effect :=
  match s.current_step with
  | .NEW => handle_new_user now s
  | .LANGUAGE_SELECT => handle_language_selection now message_text s
  | .ASK_NAME => handle_name_input now message_text s
  | .ASK_DOB => handle_dob_input env now message_text s
  | .ASK_GESTATIONAL => handle_gestational_question env now message_text s
  | .ASK_GESTATIONAL_WEEKS => handle_gestational_weeks env now message_text s
  | .ASSESSMENT => handle_assessment_answer env now message_text s
  | .COMPLETED => handle_completed_session s
  | .ABANDONED => []

/-- `ConversationFlowHandler.handle_message`, as the list of effects it
performs given the stored record of this phone. -/
def handle_message (env : Env) (store : Option ConversationStateData) (now : Nat)
    (message_text : String) : List Effect :=
  let message_lower := pyStrip (pyLower message_text)
  if RESTART_COMMANDS.contains message_lower then
    restart_conversation now
  else if HELP_COMMANDS.contains message_lower then
    [.send .helpMessage]
  else
    match store with
    | some s => dispatch env now message_text s
    | none =>
      .setState (fresh_state now) :: dispatch env now message_text (fresh_state now)

/-! ## Replaying the store writes -/

/-- Effect of one event on the stored record of this phone. -/
def applyEffect (store : Option ConversationStateData) : Effect → Option ConversationStateData
  | .setState s => some s
  | .delState => none
  | _ => store

def applyEffects (store : Option ConversationStateData) (effects : List Effect) :
    Option ConversationStateData :=
  effects.foldl applyEffect store

/-- The stored record after one full `handle_message` call. -/
def stepStore (env : Env) (store : Option ConversationStateData) (now : Nat)
    (message_text : String) : Option ConversationStateData :=
  applyEffects store (handle_message env store now message_text)

/-! ## Stream accumulator (`BackendClient.query_assistant`, src/backend_client.py)

The SSE line loop is embedded at the granularity of decoded lines: a line
is either skipped before decoding (empty or missing the `"data: "`
prefix), the `[DONE]` sentinel, an entry on which `json.loads` raises, or
a decoded event object.  `is_final` records the truthiness of the decoded
`is_final` field (absent means falsy); `metadata` is the decoded
`metadata` value, kept opaque. -/

inductive SSEEvent
  | other
  | done
  | undecodable
  | event (content : Option String) (is_final : Bool) (metadata : Option String)
  deriving DecidableEq, Repr

/-- The accumulation loop of `query_assistant`, carrying
`complete_content`, `is_final` and `metadata`. -/
def accumulate_events (c : String) (f : Bool) (m : Option String) :
    List SSEEvent → String × Bool × Option String
  | [] => (c, f, m)
  | .other :: rest => accumulate_events c f m rest
  | .done :: _ => (c, f, m)
  | .undecodable :: rest => accumulate_events c f m rest
  | .event content fin meta :: rest =>
    let c' := c ++ content.getD ""
    if fin then accumulate_events c' true meta rest
    else accumulate_events c' f m rest

/-- The terminal `BackendAssistantMessage` built by `query_assistant` from
the event stream. -/
def query_assistant_accumulate (events : List SSEEvent) : BackendAssistantMessage :=
  let r := accumulate_events "" false none events
  { content := pyStrip r.1, role := "assistant", is_final := r.2.1, metadata := r.2.2 }

/-- The decoded events actually consumed: the prefix before the sentinel,
with skipped lines removed. -/
def consumedEvents : List SSEEvent → List (Option String × Bool × Option String)
  | [] => []
  | .done :: _ => []
  | .event c f m :: rest => (c, f, m) :: consumedEvents rest
  | .other :: rest => consumedEvents rest
  | .undecodable :: rest => consumedEvents rest

def concatContents : List (Option String × Bool × Option String) → String
  | [] => ""
  | t :: rest => t.1.getD "" ++ concatContents rest

def anyFinal (l : List (Option String × Bool × Option String)) : Bool :=
  l.any (fun t => t.2.1)

/-- Threaded metadata update: each final-flagged event overwrites the
metadata, so the result is the metadata of the last final-flagged event. -/
def finalMeta (m : Option String) : List (Option String × Bool × Option String) → Option String
  | [] => m
  | t :: rest => finalMeta (if t.2.1 then t.2.2 else m) rest

/-! ## State store (src/state_store.py)

`ConversationStateStore` is embedded as its mutable state after
initialization: the external Redis keyspace, the per-process memory map,
and the mode flags.  The Redis connection object is collapsed to the flag
`has_redis_conn` (`self._redis is not None`).  Each operation takes a
`redisFail` flag deciding whether the Redis call raises, and the pydantic
codec is passed in as `enc`/`dec` (a `dec` returning `none` models a
validation exception, which never occurs on payloads produced by `enc`). -/

structure ConversationStateStore where
  redis : List (String × String) := []
  memory_store : List (String × String) := []
  redis_available : Bool
  memory_only_mode : Bool
  memory_warning_logged : Bool
  has_redis_conn : Bool
  deriving DecidableEq, Repr

def assocGet (l : List (String × String)) (k : String) : Option String :=
  match l.find? (fun kv => kv.fst = k) with
  | some kv => some kv.snd
  | none => none

def assocSet (l : List (String × String)) (k v : String) : List (String × String) :=
  match l with
  | [] => [(k, v)]
  | kv :: rest => if kv.fst = k then (k, v) :: rest else kv :: assocSet rest k v

def assocDel (l : List (String × String)) (k : String) : List (String × String) :=
  match l with
  | [] => []
  | kv :: rest => if kv.fst = k then assocDel rest k else kv :: assocDel rest k

/-- `_log_memory_fallback`: records that the de-duplicated warning has
been emitted. -/
def log_memory_fallback (st : ConversationStateStore) : ConversationStateStore :=
  { st with memory_warning_logged := true }

/-- `_key`. -/
def store_key (phone : String) : String := "conversation_state:" ++ phone

/-- The demotion performed inside every `except` branch of the store
operations: Redis is dropped for the process lifetime. -/
def demote (st : ConversationStateStore) : ConversationStateStore :=
  log_memory_fallback { st with redis_available := false, memory_only_mode := true }

/-- `ConversationStateStore.get`: Redis first (with runtime demotion on
error), then the memory map; an empty payload is falsy and reported
absent. -/
def ConversationStateStore.get (dec : String → Option ConversationStateData)
    (st : ConversationStateStore) (redisFail : Bool) (phone : String) :
    Option ConversationStateData × ConversationStateStore :=
  let r : Option String × ConversationStateStore :=
    if st.redis_available && st.has_redis_conn then
      if redisFail then (none, demote st)
      else (assocGet st.redis (store_key phone), st)
    else (none, st)
  let data : Option String :=
    match r.1 with
    | some v => some v
    | none => assocGet r.2.memory_store phone
  match data with
  | none => (none, r.2)
  | some v => if v = "" then (none, r.2) else (dec v, r.2)

/-- `ConversationStateStore.set`: Redis upsert, falling back to the memory
map (with demotion) on error; in memory mode the de-duplicated warning
path runs again. -/
def ConversationStateStore.set (enc : ConversationStateData → String)
    (st : ConversationStateStore) (redisFail : Bool) (phone : String)
    (state : ConversationStateData) : ConversationStateStore :=
  let payload := enc state
  if st.redis_available && st.has_redis_conn then
    if !redisFail then
      { st with redis := assocSet st.redis (store_key phone) payload }
    else
      let st1 := demote st
      let st2 := { st1 with memory_store := assocSet st1.memory_store phone payload }
      if !st2.redis_available then log_memory_fallback st2 else st2
  else
    let st2 := { st with memory_store := assocSet st.memory_store phone payload }
    if !st2.redis_available then log_memory_fallback st2 else st2

/-- `ConversationStateStore.delete`: best-effort Redis delete (with
demotion on error), always followed by the memory map removal. -/
def ConversationStateStore.delete (st : ConversationStateStore) (redisFail : Bool)
    (phone : String) : ConversationStateStore :=
  let st1 :=
    if st.redis_available && st.has_redis_conn then
      if redisFail then demote st
      else { st with redis := assocDel st.redis (store_key phone) }
    else st
  let st2 := { st1 with memory_store := assocDel st1.memory_store phone }
  if !st2.redis_available then log_memory_fallback st2 else st2

/-- One store operation of a process run, with the fate of its Redis
call. -/
inductive StoreOp
  | get (phone : String) (redisFail : Bool)
  | set (phone : String) (state : ConversationStateData) (redisFail : Bool)
  | del (phone : String) (redisFail : Bool)
  deriving Repr

def applyStoreOp (enc : ConversationStateData → String)
    (dec : String → Option ConversationStateData)
    (st : ConversationStateStore) : StoreOp → ConversationStateStore
  | .get p f => (ConversationStateStore.get dec st f p).2
  | .set p s f => ConversationStateStore.set enc st f p s
  | .del p f => ConversationStateStore.delete st f p

def applyStoreOps (enc : ConversationStateData → String)
    (dec : String → Option ConversationStateData)
    (st : ConversationStateStore) (ops : List StoreOp) : ConversationStateStore :=
  ops.foldl (applyStoreOp enc dec) st

/-- Volatile (memory-only) mode: the demoted configuration. -/
def volatileMode (st : ConversationStateStore) : Bool :=
  st.memory_only_mode && !st.redis_available

/-! ## Derived views of an effect trace -/

/-- The `current_step` values persisted by a trace, in write order. -/
def stepsWritten (effects : List Effect) : List ConversationState :=
  effects.filterMap fun e =>
    match e with
    | .setState s => some s.current_step
    | _ => none

/-- Every persisted step, compared with the previously stored one, either
moves forward in the declared stage order or is a reset to `NEW`. -/
def chainOK : Option ConversationState → List ConversationState → Bool
  | _, [] => true
  | prev, c :: rest =>
    (match prev with
     | none => true
     | some p => decide (p.rank ≤ c.rank) || decide (c = .NEW)) && chainOK (some c) rest

/-- The trace performs no store write at all. -/
def writesNothing (effects : List Effect) : Bool :=
  effects.all fun e =>
    match e with
    | .setState _ => false
    | .delState => false
    | _ => true

/-- The `session_id` of the stored record, when one exists. -/
def sessionOf (store : Option ConversationStateData) : Option String :=
  store.bind fun s => s.session_id

/-- Stored records reachable from an unseen phone by any sequence of
inbound messages against any backend behaviour. -/
inductive Reachable : Option ConversationStateData → Prop
  | init : Reachable none
  | step (env : Env) (now : Nat) (text : String) {st : Option ConversationStateData} :
      Reachable st → Reachable (stepStore env st now text)

/-! ## Concrete instances used in examples and witnesses -/

/-- An environment whose every backend call raises. -/
def EnvFail : Env where
  start_session := fun _ _ _ _ => .error ()
  query_assistant := fun _ _ _ => .error ()
  close_session := fun _ => .error ()
  get_results := fun _ => .error ()
  dateutil_parse := fun _ => none

/-- An environment whose every backend call succeeds, with a non-final
first assistant turn. -/
def EnvOk : Env where
  start_session := fun _ _ _ _ => .ok { session_id := "sid-1" }
  query_assistant := fun _ _ _ => .ok { content := "Q", is_final := false }
  close_session := fun _ => .ok { message := "ok", total_questions := 12, domains_assessed := [] }
  get_results := fun _ => .ok { using_corrected_age := false, overall_status := "On track" }
  dateutil_parse := fun _ => none

/-- The backend sequence performed by `start_assessment` raises at some
point: either the `session/start` call or the first `assistant/query`
call fails. -/
def start_sequence_fails (env : Env) (s : ConversationStateData) : Bool :=
  match env.start_session s.collected_data.child_name s.collected_data.dob
      s.collected_data.gestational_weeks (pyOr s.collected_data.locale "en") with
  | .error _ => true
  | .ok r =>
    match env.query_assistant (some r.session_id) "Start assessment" none with
    | .error _ => true
    | .ok _ => false

/-- The backend sequence performed by `complete_assessment` raises at some
point: either the `session/close` call or the `results` fetch fails. -/
def complete_sequence_fails (env : Env) (s : ConversationStateData) : Bool :=
  match env.close_session s.session_id with
  | .error _ => true
  | .ok _ =>
    match env.get_results s.session_id with
    | .error _ => true
    | .ok _ => false

/-- Invariant: before the record reaches `ASSESSMENT` (or `COMPLETED`),
no `session_id` has been persisted. -/
def SessInv : Option ConversationStateData → Prop
  | none => True
  | some s =>
    s.current_step ≠ .ASSESSMENT → s.current_step ≠ .COMPLETED → s.session_id = none

/-- A store freshly initialized in durable (Redis) mode. -/
def storeDurable : ConversationStateStore where
  redis_available := true
  memory_only_mode := false
  memory_warning_logged := false
  has_redis_conn := true

/-- A store in volatile (memory-only) mode. -/
def storeVolatile : ConversationStateStore where
  redis_available := false
  memory_only_mode := true
  memory_warning_logged := true
  has_redis_conn := false

/-- A trivial constant serializer, paired with `decConst`; they round-trip
on the single state `fresh_state 0`. -/
def encConst : ConversationStateData → String := fun _ => "payload"

def decConst : String → Option ConversationStateData := fun _ => some (fresh_state 0)

/-- An environment where the assessment itself succeeds with a final
answer but the completion sequence fails at `session/close`. -/
def EnvCloseFail : Env where
  start_session := fun _ _ _ _ => .ok { session_id := "sid-1" }
  query_assistant := fun _ _ _ => .ok { content := "bye", is_final := true }
  close_session := fun _ => .error ()
  get_results := fun _ => .ok { }
  dateutil_parse := fun _ => none

/-- Stored records of a concrete conversation replayed against `EnvOk`,
used to exhibit reachable states. -/
def W1 : ConversationStateData :=
  { current_step := .LANGUAGE_SELECT, last_message_at := 0 }

def W2 : ConversationStateData :=
  { current_step := .ASK_NAME, collected_data := { locale := some "en" },
    last_message_at := 0 }

def W3 : ConversationStateData :=
  { current_step := .ASK_DOB,
    collected_data := { locale := some "en", child_name := some "Sia" },
    last_message_at := 0 }

def W4 : ConversationStateData :=
  { current_step := .ASK_GESTATIONAL,
    collected_data := { locale := some "en", child_name := some "Sia",
                        dob := some "2024-03-15" },
    last_message_at := 0 }

def W5 : ConversationStateData :=
  { current_step := .ASSESSMENT,
    collected_data := { locale := some "en", child_name := some "Sia",
                        dob := some "2024-03-15", is_premature := some false,
                        gestational_weeks := none },
    session_id := some "sid-1", questions_asked := 1, last_message_at := 0 }

/-! ## General lemmas about effect traces -/

theorem applyEffects_append (store : Option ConversationStateData)
    (l₁ l₂ : List Effect) :
    applyEffects store (l₁ ++ l₂) = applyEffects (applyEffects store l₁) l₂ := by
  simp [applyEffects, List.foldl_append]

theorem applyEffects_writesNothing (store : Option ConversationStateData)
    {l : List Effect} (h : writesNothing l = true) : applyEffects store l = store := by
  induction l with
  | nil => rfl
  | cons e rest ih =>
    simp only [writesNothing, List.all_cons, Bool.and_eq_true] at h
    have he : applyEffect store e = store := by
      cases e <;> simp_all [applyEffect]
    simpa [applyEffects, he] using ih (by simpa [writesNothing] using h.2)

/-! ## Accumulator correctness lemma -/

theorem accumulate_events_spec (events : List SSEEvent) :
    ∀ c f m, accumulate_events c f m events
      = (c ++ concatContents (consumedEvents events),
         f || anyFinal (consumedEvents events),
         finalMeta m (consumedEvents events)) := by
  induction events with
  | nil => intro c f m; simp [accumulate_events, consumedEvents, concatContents, anyFinal, finalMeta]
  | cons e rest ih =>
    intro c f m
    cases e with
    | other => simpa [accumulate_events, consumedEvents] using ih c f m
    | done => simp [accumulate_events, consumedEvents, concatContents, anyFinal, finalMeta]
    | undecodable => simpa [accumulate_events, consumedEvents] using ih c f m
    | event content fin meta =>
      cases fin with
      | false =>
        simpa [accumulate_events, consumedEvents, concatContents, anyFinal, finalMeta,
               String.append_assoc] using ih (c ++ content.getD "") f m
      | true =>
        simpa [accumulate_events, consumedEvents, concatContents, anyFinal, finalMeta,
               String.append_assoc] using ih (c ++ content.getD "") true meta

/-! ## Smoke tests for the embedding -/

example : extract_weeks "34" = some 34 := by decide
example : extract_weeks "i think 34 weeks" = some 34 := by decide
example : extract_weeks "abc" = none := by decide
example : parse_date (fun _ => none) "15/03/2024" = some "2024-03-15" := by decide
example : parse_date (fun _ => none) "2024-03-15" = some "2024-03-15" := by decide
example : parse_date (fun _ => none) "not-a-date" = none := by decide
example : parse_date (fun _ => none) "31/02/2024" = none := by decide
example : parse_date (fun _ => none) "29/02/2024" = some "2024-02-29" := by decide
example : resolveLocale "english" = "en" := by decide
example : resolveLocale "i speak hindi" = "hi" := by decide
example : resolveLocale "xyz" = "en" := by decide
example : resolveAnswerCode "yes" = some "yes" := by decide
example : resolveAnswerCode "not sure" = some "not_sure" := by decide
example :
    stepStore EnvFail none 3 "Start"
      = some { current_step := .LANGUAGE_SELECT, last_message_at := 3 } := by decide

/-! ## Claim C4: stream accumulator -/

/-- C4: the stream accumulator produces exactly one terminal message (it
is a function of the event stream); its text is the concatenation of the
consumed content fragments with surrounding whitespace trimmed; its
`is_final` flag is true iff some consumed event carried a truthy final
flag; its metadata is the threaded metadata of the final-flagged events
(`none` when no final event was consumed); undecodable entries are
skipped; the `[DONE]` sentinel stops consumption; the empty stream gives
`{text := "", is_final := false, metadata := none}`. -/
theorem claim_C4_stream_accumulator :
    (∀ events, (query_assistant_accumulate events).content
        = pyStrip (concatContents (consumedEvents events))
      ∧ (query_assistant_accumulate events).is_final = anyFinal (consumedEvents events)
      ∧ (query_assistant_accumulate events).metadata = finalMeta none (consumedEvents events))
    ∧ query_assistant_accumulate []
        = { content := "", is_final := false, metadata := none }
    ∧ query_assistant_accumulate
          [.event (some "Hel") false none, .event (some "lo") true (some "x:1")]
        = { content := "Hello", is_final := true, metadata := some "x:1" }
    ∧ query_assistant_accumulate [.undecodable, .event (some "ok") true (some "m")]
        = { content := "ok", is_final := true, metadata := some "m" }
    ∧ query_assistant_accumulate
          [.event (some "a") false none, .done, .event (some "b") true (some "z")]
        = { content := "a", is_final := false, metadata := none } := by
  refine ⟨fun events => ?_, by decide, by decide, by decide, by decide⟩
  have h := accumulate_events_spec events "" false none
  refine ⟨?_, ?_, ?_⟩ <;>
    simp [query_assistant_accumulate, h]

/-! ## Claims C5, C6, C10: the state store -/

theorem assocGet_assocSet (l : List (String × String)) (k v : String) :
    assocGet (assocSet l k v) k = some v := by
  induction l with
  | nil => simp [assocSet, assocGet, List.find?]
  | cons kv rest ih =>
    by_cases h : kv.fst = k
    · simp [assocSet, assocGet, List.find?, h]
    · simpa [assocSet, assocGet, List.find?, h] using ih

/-- C5: setting a record and then reading it back returns an equal state,
in durable mode (healthy Redis) and in volatile mode alike, provided the
serialization codec round-trips on that state (the store itself is
encoding-agnostic; the codec is pydantic's, external to this service). -/
theorem claim_C5_state_roundtrip
    (enc : ConversationStateData → String) (dec : String → Option ConversationStateData)
    (st : ConversationStateStore) (phone : String) (s : ConversationStateData)
    (hdec : dec (enc s) = some s) (hne : enc s ≠ "") :
    (st.redis_available = true → st.has_redis_conn = true →
      (ConversationStateStore.get dec
        (ConversationStateStore.set enc st false phone s) false phone).1 = some s)
    ∧ (st.redis_available = false →
      (ConversationStateStore.get dec
        (ConversationStateStore.set enc st false phone s) false phone).1 = some s) := by
  constructor
  · intro h1 h2
    simp [ConversationStateStore.set, ConversationStateStore.get, h1, h2,
      assocGet_assocSet, hdec, hne]
  · intro h1
    simp [ConversationStateStore.set, ConversationStateStore.get, h1,
      log_memory_fallback, assocGet_assocSet, hdec, hne]

/-- C5 witness: a concrete durable store and a concrete volatile store
round-trip the state `fresh_state 0` under a codec that round-trips on
it. -/
theorem claim_C5_state_roundtrip_witness :
    (ConversationStateStore.get decConst
      (ConversationStateStore.set encConst storeDurable false "155" (fresh_state 0))
      false "155").1 = some (fresh_state 0)
    ∧ (ConversationStateStore.get decConst
      (ConversationStateStore.set encConst storeVolatile false "155" (fresh_state 0))
      false "155").1 = some (fresh_state 0) :=
  ⟨(claim_C5_state_roundtrip encConst decConst storeDurable "155" (fresh_state 0)
      rfl (by decide)).1 rfl rfl,
   (claim_C5_state_roundtrip encConst decConst storeVolatile "155" (fresh_state 0)
      rfl (by decide)).2 rfl⟩

/-- The store state left behind by a `get` call, by cases on mode and on
the fate of the Redis read. -/
theorem ConversationStateStore.get_snd
    (dec : String → Option ConversationStateData) (st : ConversationStateStore)
    (redisFail : Bool) (phone : String) :
    (ConversationStateStore.get dec st redisFail phone).2
      = if st.redis_available && st.has_redis_conn then
          (if redisFail then demote st else st)
        else st := by
  by_cases hc : (st.redis_available && st.has_redis_conn) = true
  · by_cases hf : redisFail = true
    · cases hmem : assocGet (demote st).memory_store phone with
      | none => simp [ConversationStateStore.get, hc, hf, hmem]
      | some v =>
        by_cases hv : v = "" <;> simp [ConversationStateStore.get, hc, hf, hmem, hv]
    · rcases hmem : assocGet st.redis (store_key phone) with _ | v
      · cases hmem2 : assocGet st.memory_store phone with
        | none => simp [ConversationStateStore.get, hc, hf, hmem, hmem2]
        | some v =>
          by_cases hv : v = "" <;>
            simp [ConversationStateStore.get, hc, hf, hmem, hmem2, hv]
      · by_cases hv : v = "" <;> simp [ConversationStateStore.get, hc, hf, hmem, hv]
  · cases hmem : assocGet st.memory_store phone with
    | none => simp [ConversationStateStore.get, hc, hmem]
    | some v =>
      by_cases hv : v = "" <;> simp [ConversationStateStore.get, hc, hmem, hv]

theorem volatileMode_applyStoreOp
    (enc : ConversationStateData → String) (dec : String → Option ConversationStateData)
    (st : ConversationStateStore) (op : StoreOp) (h : volatileMode st = true) :
    volatileMode (applyStoreOp enc dec st op) = true := by
  simp only [volatileMode, Bool.and_eq_true, Bool.not_eq_true'] at h
  obtain ⟨hm, hr⟩ := h
  cases op with
  | get p f =>
    simp [applyStoreOp, ConversationStateStore.get_snd, hr, volatileMode, hm]
  | set p s f =>
    simp [applyStoreOp, ConversationStateStore.set, hr, volatileMode,
      log_memory_fallback, hm]
  | del p f =>
    simp [applyStoreOp, ConversationStateStore.delete, hr, volatileMode,
      log_memory_fallback, hm]

/-- C6: store demotion is one-way.  First conjunct: once the store is in
volatile mode, it is still in volatile mode after any sequence of
get/set/delete operations, however their Redis calls would fare.  Second
conjunct: from durable mode, an operation whose Redis call raises flips
the store into volatile mode. -/
theorem claim_C6_demotion_one_way
    (enc : ConversationStateData → String) (dec : String → Option ConversationStateData)
    (st : ConversationStateStore) (ops : List StoreOp) :
    (volatileMode st = true → volatileMode (applyStoreOps enc dec st ops) = true)
    ∧ (∀ phone state, st.redis_available = true → st.has_redis_conn = true →
        volatileMode (applyStoreOp enc dec st (.get phone true)) = true
        ∧ volatileMode (applyStoreOp enc dec st (.set phone state true)) = true
        ∧ volatileMode (applyStoreOp enc dec st (.del phone true)) = true) := by
  constructor
  · intro h
    induction ops generalizing st with
    | nil => simpa [applyStoreOps] using h
    | cons op rest ih =>
      have h1 := volatileMode_applyStoreOp enc dec st op h
      simpa [applyStoreOps] using ih (applyStoreOp enc dec st op) h1
  · intro phone state h1 h2
    refine ⟨?_, ?_, ?_⟩ <;>
      simp [applyStoreOp, ConversationStateStore.get_snd, ConversationStateStore.set,
        ConversationStateStore.delete, volatileMode, log_memory_fallback, demote, h1, h2]

/-- C6 witness: a volatile store stays volatile across a concrete mix of
operations with both healthy and failing Redis calls, and each failing
operation demotes a concrete durable store. -/
theorem claim_C6_demotion_one_way_witness :
    volatileMode (applyStoreOps encConst decConst storeVolatile
      [.set "155" (fresh_state 0) false, .get "155" true, .del "155" false]) = true
    ∧ volatileMode (applyStoreOp encConst decConst storeDurable (.get "155" true)) = true :=
  ⟨(claim_C6_demotion_one_way encConst decConst storeVolatile
      [.set "155" (fresh_state 0) false, .get "155" true, .del "155" false]).1 rfl,
   ((claim_C6_demotion_one_way encConst decConst storeDurable []).2 "155"
      (fresh_state 0) rfl rfl).1⟩

/-- C10: in healthy durable mode, a `get` that misses in Redis falls
through to the in-process memory map: it returns the state whose encoding
an earlier (degraded) write left there, and reports absence only when the
memory map also lacks the key. -/
theorem claim_C10_get_consults_memory
    (enc : ConversationStateData → String) (dec : String → Option ConversationStateData)
    (st : ConversationStateStore) (phone : String) (s : ConversationStateData)
    (h1 : st.redis_available = true) (h2 : st.has_redis_conn = true)
    (h3 : assocGet st.redis (store_key phone) = none) :
    (assocGet st.memory_store phone = some (enc s) → dec (enc s) = some s → enc s ≠ "" →
      (ConversationStateStore.get dec st false phone).1 = some s)
    ∧ (assocGet st.memory_store phone = none →
      (ConversationStateStore.get dec st false phone).1 = none) := by
  constructor
  · intro hmem hdec hne
    simp [ConversationStateStore.get, h1, h2, h3, hmem, hdec, hne]
  · intro hmem
    simp [ConversationStateStore.get, h1, h2, h3, hmem]

/-- C10 witness: a concrete durable store with an empty Redis keyspace
returns the memory-resident state for a present key and absence for a
missing one. -/
theorem claim_C10_get_consults_memory_witness :
    (ConversationStateStore.get decConst
      { storeDurable with memory_store := [("155", "payload")] } false "155").1
      = some (fresh_state 0)
    ∧ (ConversationStateStore.get decConst storeDurable false "155").1 = none :=
  ⟨(claim_C10_get_consults_memory encConst decConst
      { storeDurable with memory_store := [("155", "payload")] } "155" (fresh_state 0)
      rfl rfl rfl).1 rfl rfl (by decide),
   (claim_C10_get_consults_memory encConst decConst storeDurable "155" (fresh_state 0)
      rfl rfl rfl).2 rfl⟩

/-! ## Branch characterizations of the flow -/

theorem handle_message_restart_eq (env : Env) (store : Option ConversationStateData)
    (now : Nat) (text : String)
    (h : pyStrip (pyLower text) ∈ RESTART_COMMANDS) :
    handle_message env store now text
      = [.delState, .setState (fresh_state now), .send .welcome,
         .setState { fresh_state now with current_step := .LANGUAGE_SELECT }] := by
  simp [handle_message, h, restart_conversation, handle_new_user, save_state, fresh_state]

theorem handle_message_help_eq (env : Env) (store : Option ConversationStateData)
    (now : Nat) (text : String)
    (hr : pyStrip (pyLower text) ∉ RESTART_COMMANDS)
    (hh : pyStrip (pyLower text) ∈ HELP_COMMANDS) :
    handle_message env store now text = [.send .helpMessage] := by
  simp [handle_message, hr, hh]

theorem handle_message_none_eq (env : Env) (now : Nat) (text : String)
    (hr : pyStrip (pyLower text) ∉ RESTART_COMMANDS)
    (hh : pyStrip (pyLower text) ∉ HELP_COMMANDS) :
    handle_message env none now text
      = .setState (fresh_state now) :: dispatch env now text (fresh_state now) := by
  simp [handle_message, hr, hh]

theorem handle_message_dispatch_eq (env : Env) (s : ConversationStateData)
    (now : Nat) (text : String)
    (hr : pyStrip (pyLower text) ∉ RESTART_COMMANDS)
    (hh : pyStrip (pyLower text) ∉ HELP_COMMANDS) :
    handle_message env (some s) now text = dispatch env now text s := by
  simp [handle_message, hr, hh]

/-- Full case analysis of the `start_assessment` trace over the fate of
its two backend calls. -/
theorem start_assessment_eq (env : Env) (now : Nat) (s : ConversationStateData) :
    (env.start_session s.collected_data.child_name s.collected_data.dob
        s.collected_data.gestational_weeks (pyOr s.collected_data.locale "en") = .error ()
      ∧ start_assessment env now s
        = [.callStartSession s.collected_data.child_name s.collected_data.dob
             s.collected_data.gestational_weeks (pyOr s.collected_data.locale "en"),
           .send .errorMessage])
    ∨ (∃ r, env.start_session s.collected_data.child_name s.collected_data.dob
          s.collected_data.gestational_weeks (pyOr s.collected_data.locale "en") = .ok r
        ∧ ((env.query_assistant (some r.session_id) "Start assessment" none = .error ()
             ∧ start_assessment env now s
               = [.callStartSession s.collected_data.child_name s.collected_data.dob
                    s.collected_data.gestational_weeks (pyOr s.collected_data.locale "en"),
                  .send .startingAssessment,
                  .callQueryAssistant (some r.session_id) "Start assessment" none,
                  .send .errorMessage])
           ∨ (∃ am, env.query_assistant (some r.session_id) "Start assessment" none = .ok am
               ∧ start_assessment env now s
                 = [.callStartSession s.collected_data.child_name s.collected_data.dob
                      s.collected_data.gestational_weeks (pyOr s.collected_data.locale "en"),
                    .send .startingAssessment,
                    .callQueryAssistant (some r.session_id) "Start assessment" none,
                    .send (.question (s.questions_asked + 1) am.content),
                    .setState { s with session_id := some r.session_id,
                                       current_step := .ASSESSMENT,
                                       questions_asked := s.questions_asked + 1,
                                       last_message_at := now }]))) := by
  cases hs : env.start_session s.collected_data.child_name s.collected_data.dob
      s.collected_data.gestational_weeks (pyOr s.collected_data.locale "en") with
  | error e =>
    cases e
    exact Or.inl ⟨rfl, by simp [start_assessment, hs]⟩
  | ok r =>
    refine Or.inr ⟨r, rfl, ?_⟩
    cases hq : env.query_assistant (some r.session_id) "Start assessment" none with
    | error e =>
      cases e
      exact Or.inl ⟨rfl, by simp [start_assessment, hs, hq]⟩
    | ok am =>
      exact Or.inr ⟨am, rfl, by simp [start_assessment, hs, hq, save_state]⟩

/-- Full case analysis of the `complete_assessment` trace over the fate
of its two backend calls. -/
theorem complete_assessment_eq (env : Env) (now : Nat) (s : ConversationStateData) :
    (env.close_session s.session_id = .error ()
      ∧ complete_assessment env now s = [.callCloseSession s.session_id, .send .errorMessage])
    ∨ (∃ c, env.close_session s.session_id = .ok c
        ∧ ((env.get_results s.session_id = .error ()
             ∧ complete_assessment env now s
               = [.callCloseSession s.session_id, .callGetResults s.session_id,
                  .send .errorMessage])
           ∨ (∃ res, env.get_results s.session_id = .ok res
               ∧ complete_assessment env now s
                 = [.callCloseSession s.session_id, .callGetResults s.session_id,
                    .send .assessmentComplete,
                    .setState { s with current_step := .COMPLETED,
                                       last_message_at := now }]))) := by
  cases hc : env.close_session s.session_id with
  | error e =>
    cases e
    exact Or.inl ⟨rfl, by simp [complete_assessment, hc]⟩
  | ok c =>
    refine Or.inr ⟨c, rfl, ?_⟩
    cases hg : env.get_results s.session_id with
    | error e =>
      cases e
      exact Or.inl ⟨rfl, by simp [complete_assessment, hc, hg]⟩
    | ok res =>
      exact Or.inr ⟨res, rfl, by simp [complete_assessment, hc, hg, save_state]⟩

theorem stepsWritten_start_assessment (env : Env) (now : Nat) (s : ConversationStateData) :
    stepsWritten (start_assessment env now s) = []
    ∨ stepsWritten (start_assessment env now s) = [ConversationState.ASSESSMENT] := by
  rcases start_assessment_eq env now s with ⟨_, heq⟩ | ⟨r, _, ⟨_, heq⟩ | ⟨am, _, heq⟩⟩ <;>
    rw [heq] <;> simp [stepsWritten]

theorem stepsWritten_complete_assessment (env : Env) (now : Nat) (s : ConversationStateData) :
    stepsWritten (complete_assessment env now s) = []
    ∨ stepsWritten (complete_assessment env now s) = [ConversationState.COMPLETED] := by
  rcases complete_assessment_eq env now s with ⟨_, heq⟩ | ⟨c, _, ⟨_, heq⟩ | ⟨res, _, heq⟩⟩ <;>
    rw [heq] <;> simp [stepsWritten]


/-- Net effect of a `start_assessment` trace on the stored record: either
no write happened (a backend call failed), or the record was persisted at
`ASSESSMENT` with the backend-issued session id. -/
theorem applyEffects_start_assessment (env : Env) (now : Nat)
    (s₀ : ConversationStateData) (store : Option ConversationStateData) :
    applyEffects store (start_assessment env now s₀) = store
    ∨ ∃ r, env.start_session s₀.collected_data.child_name s₀.collected_data.dob
          s₀.collected_data.gestational_weeks (pyOr s₀.collected_data.locale "en") = .ok r
        ∧ applyEffects store (start_assessment env now s₀)
            = some { s₀ with session_id := some r.session_id,
                             current_step := .ASSESSMENT,
                             questions_asked := s₀.questions_asked + 1,
                             last_message_at := now } := by
  rcases start_assessment_eq env now s₀ with ⟨_, heq⟩ | ⟨r, hok, ⟨_, heq⟩ | ⟨am, _, heq⟩⟩
  · exact Or.inl (by rw [heq]; simp [applyEffects, applyEffect])
  · exact Or.inl (by rw [heq]; simp [applyEffects, applyEffect])
  · exact Or.inr ⟨r, hok, by rw [heq]; simp [applyEffects, applyEffect]⟩

/-- Net effect of a `complete_assessment` trace on the stored record:
either no write happened (a backend call failed), or the record was
persisted at `COMPLETED`. -/
theorem applyEffects_complete_assessment (env : Env) (now : Nat)
    (s₀ : ConversationStateData) (store : Option ConversationStateData) :
    applyEffects store (complete_assessment env now s₀) = store
    ∨ applyEffects store (complete_assessment env now s₀)
        = some { s₀ with current_step := .COMPLETED, last_message_at := now } := by
  rcases complete_assessment_eq env now s₀ with ⟨_, heq⟩ | ⟨c, _, ⟨_, heq⟩ | ⟨res, _, heq⟩⟩
  · exact Or.inl (by rw [heq]; simp [applyEffects, applyEffect])
  · exact Or.inl (by rw [heq]; simp [applyEffects, applyEffect])
  · exact Or.inr (by rw [heq]; simp [applyEffects, applyEffect])

/-- Exhaustive description of the stored record after one `handle_message`
call on an existing record, tagged with the conditions under which each
outcome arises. -/
theorem stepStore_some_cases (env : Env) (now : Nat) (text : String)
    (s : ConversationStateData) :
    (stepStore env (some s) now text
        = some { fresh_state now with current_step := .LANGUAGE_SELECT }
      ∧ pyStrip (pyLower text) ∈ RESTART_COMMANDS)
    ∨ stepStore env (some s) now text = some s
    ∨ (stepStore env (some s) now text
        = some { s with current_step := .LANGUAGE_SELECT, last_message_at := now }
      ∧ s.current_step = .NEW)
    ∨ (∃ loc, stepStore env (some s) now text
        = some { s with collected_data := { s.collected_data with locale := some loc },
                        current_step := .ASK_NAME, last_message_at := now }
      ∧ s.current_step = .LANGUAGE_SELECT)
    ∨ (∃ nm, stepStore env (some s) now text
        = some { s with collected_data := { s.collected_data with child_name := some nm },
                        current_step := .ASK_DOB, last_message_at := now }
      ∧ s.current_step = .ASK_NAME)
    ∨ (∃ iso, stepStore env (some s) now text
        = some { s with collected_data := { s.collected_data with dob := some iso },
                        current_step := .ASK_GESTATIONAL, last_message_at := now }
      ∧ s.current_step = .ASK_DOB)
    ∨ (stepStore env (some s) now text
        = some { s with collected_data :=
                          { s.collected_data with is_premature := some true },
                        current_step := .ASK_GESTATIONAL_WEEKS, last_message_at := now }
      ∧ s.current_step = .ASK_GESTATIONAL)
    ∨ (∃ cd r, stepStore env (some s) now text
        = some { s with collected_data := cd, session_id := some r.session_id,
                        current_step := .ASSESSMENT,
                        questions_asked := s.questions_asked + 1, last_message_at := now }
      ∧ env.start_session cd.child_name cd.dob cd.gestational_weeks (pyOr cd.locale "en")
          = .ok r
      ∧ (s.current_step = .ASK_GESTATIONAL ∨ s.current_step = .ASK_GESTATIONAL_WEEKS))
    ∨ (stepStore env (some s) now text
        = some { s with questions_asked := s.questions_asked + 1, last_message_at := now }
      ∧ s.current_step = .ASSESSMENT)
    ∨ (stepStore env (some s) now text
        = some { s with current_step := .COMPLETED, last_message_at := now }
      ∧ s.current_step = .ASSESSMENT) := by
  by_cases hr : pyStrip (pyLower text) ∈ RESTART_COMMANDS
  · refine Or.inl ⟨?_, hr⟩
    simp [stepStore, handle_message_restart_eq env (some s) now text hr,
      applyEffects, applyEffect]
  · by_cases hh : pyStrip (pyLower text) ∈ HELP_COMMANDS
    · refine Or.inr (Or.inl ?_)
      simp [stepStore, handle_message_help_eq env (some s) now text hr hh,
        applyEffects, applyEffect]
    · have hd := handle_message_dispatch_eq env s now text hr hh
      cases hstep : s.current_step with
      | NEW =>
        refine Or.inr (Or.inr (Or.inl ⟨?_, rfl⟩))
        simp [stepStore, hd, dispatch, hstep, handle_new_user, save_state,
          applyEffects, applyEffect]
      | LANGUAGE_SELECT =>
        refine Or.inr (Or.inr (Or.inr (Or.inl
          ⟨resolveLocale (pyStrip (pyLower text)), ?_, rfl⟩)))
        simp [stepStore, hd, dispatch, hstep, handle_language_selection, save_state,
          applyEffects, applyEffect]
      | ASK_NAME =>
        refine Or.inr (Or.inr (Or.inr (Or.inr (Or.inl ⟨pyStrip text, ?_, rfl⟩))))
        simp [stepStore, hd, dispatch, hstep, handle_name_input, save_state,
          applyEffects, applyEffect]
      | ASK_DOB =>
        cases hpd : parse_date env.dateutil_parse text with
        | none =>
          refine Or.inr (Or.inl ?_)
          simp [stepStore, hd, dispatch, hstep, handle_dob_input, hpd,
            applyEffects, applyEffect]
        | some iso =>
          refine Or.inr (Or.inr (Or.inr (Or.inr (Or.inr (Or.inl ⟨iso, ?_, rfl⟩)))))
          simp [stepStore, hd, dispatch, hstep, handle_dob_input, hpd, save_state,
            applyEffects, applyEffect]
      | ASK_GESTATIONAL =>
        by_cases hy : pyStrip (pyLower text) ∈ YES_PHRASES
        · refine Or.inr (Or.inr (Or.inr (Or.inr (Or.inr (Or.inr (Or.inl ⟨?_, rfl⟩))))))
          simp [stepStore, hd, dispatch, hstep, handle_gestational_question, hy,
            save_state, applyEffects, applyEffect]
        · have hgoal : stepStore env (some s) now text
              = applyEffects (some s) (start_assessment env now
                  { s with collected_data := { s.collected_data with
                      is_premature := some false, gestational_weeks := none } }) := by
            simp [stepStore, hd, dispatch, hstep, handle_gestational_question, hy]
          rcases applyEffects_start_assessment env now
              { s with collected_data := { s.collected_data with
                  is_premature := some false, gestational_weeks := none } } (some s) with
            h0 | ⟨r, hok, h0⟩
          · exact Or.inr (Or.inl (hgoal.trans h0))
          · refine Or.inr (Or.inr (Or.inr (Or.inr (Or.inr (Or.inr (Or.inr (Or.inl
              ⟨{ s.collected_data with is_premature := some false,
                                       gestational_weeks := none },
                r, ?_, ?_, Or.inl rfl⟩)))))))
            · rw [hgoal, h0]
            · simpa using hok
      | ASK_GESTATIONAL_WEEKS =>
        cases hew : extract_weeks text with
        | none =>
          refine Or.inr (Or.inl ?_)
          simp [stepStore, hd, dispatch, hstep, handle_gestational_weeks, hew,
            applyEffects, applyEffect]
        | some w =>
          by_cases hw : (24 ≤ w && w ≤ 42) = true
          · have hgoal : stepStore env (some s) now text
                = applyEffects (some s) (start_assessment env now
                    { s with collected_data :=
                        { s.collected_data with gestational_weeks := some w } }) := by
              simp [stepStore, hd, dispatch, hstep, handle_gestational_weeks, hew, hw]
            rcases applyEffects_start_assessment env now
                { s with collected_data :=
                    { s.collected_data with gestational_weeks := some w } } (some s) with
              h0 | ⟨r, hok, h0⟩
            · exact Or.inr (Or.inl (hgoal.trans h0))
            · refine Or.inr (Or.inr (Or.inr (Or.inr (Or.inr (Or.inr (Or.inr (Or.inl
                ⟨{ s.collected_data with gestational_weeks := some w },
                  r, ?_, ?_, Or.inr rfl⟩)))))))
              · rw [hgoal, h0]
              · simpa using hok
          · refine Or.inr (Or.inl ?_)
            simp [stepStore, hd, dispatch, hstep, handle_gestational_weeks, hew, hw,
              applyEffects, applyEffect]
      | ASSESSMENT =>
        cases hac : resolveAnswerCode (pyStrip (pyLower text)) with
        | none =>
          refine Or.inr (Or.inl ?_)
          simp [stepStore, hd, dispatch, hstep, handle_assessment_answer, hac,
            applyEffects, applyEffect]
        | some code =>
          cases hq : env.query_assistant s.session_id text (some code) with
          | error e =>
            refine Or.inr (Or.inl ?_)
            simp [stepStore, hd, dispatch, hstep, handle_assessment_answer, hac, hq,
              applyEffects, applyEffect]
          | ok am =>
            cases ham : am.is_final with
            | false =>
              refine Or.inr (Or.inr (Or.inr (Or.inr (Or.inr (Or.inr (Or.inr (Or.inr
                (Or.inl ⟨?_, rfl⟩))))))))
              simp [stepStore, hd, dispatch, hstep, handle_assessment_answer, hac, hq,
                ham, save_state, applyEffects, applyEffect]
            | true =>
              have hgoal : stepStore env (some s) now text
                  = applyEffects (some s) (complete_assessment env now s) := by
                simp [stepStore, hd, dispatch, hstep, handle_assessment_answer,
                  hac, hq, ham, applyEffects, applyEffect]
              rcases applyEffects_complete_assessment env now s (some s) with h0 | h0
              · exact Or.inr (Or.inl (hgoal.trans h0))
              · refine Or.inr (Or.inr (Or.inr (Or.inr (Or.inr (Or.inr (Or.inr (Or.inr
                  (Or.inr ⟨?_, rfl⟩))))))))
                exact hgoal.trans h0
      | COMPLETED =>
        refine Or.inr (Or.inl ?_)
        simp [stepStore, hd, dispatch, hstep, handle_completed_session,
          applyEffects, applyEffect]
      | ABANDONED =>
        refine Or.inr (Or.inl ?_)
        simp [stepStore, hd, dispatch, hstep, applyEffects, applyEffect]

/-- The stored record after one `handle_message` call on an unseen phone:
either untouched (help command) or the freshly created record advanced to
`LANGUAGE_SELECT`. -/
theorem stepStore_none_cases (env : Env) (now : Nat) (text : String) :
    stepStore env none now text = none
    ∨ stepStore env none now text
        = some { fresh_state now with current_step := .LANGUAGE_SELECT } := by
  by_cases hr : pyStrip (pyLower text) ∈ RESTART_COMMANDS
  · right
    simp [stepStore, handle_message_restart_eq env none now text hr,
      applyEffects, applyEffect]
  · by_cases hh : pyStrip (pyLower text) ∈ HELP_COMMANDS
    · left
      simp [stepStore, handle_message_help_eq env none now text hr hh,
        applyEffects, applyEffect]
    · right
      simp [stepStore, handle_message_none_eq env now text hr hh, dispatch,
        fresh_state, handle_new_user, save_state, applyEffects, applyEffect]

/-- `SessInv` is preserved by every `handle_message` step. -/
theorem sessInv_step (env : Env) (now : Nat) (text : String)
    (st : Option ConversationStateData) (h : SessInv st) :
    SessInv (stepStore env st now text) := by
  cases st with
  | none =>
    rcases stepStore_none_cases env now text with h0 | h0 <;> rw [h0]
    · trivial
    · intro _ _; rfl
  | some s =>
    rcases stepStore_some_cases env now text s with
      ⟨h0, _⟩ | h0 | ⟨h0, hstep⟩ | ⟨loc, h0, hstep⟩ | ⟨nm, h0, hstep⟩ | ⟨iso, h0, hstep⟩
      | ⟨h0, hstep⟩ | ⟨cd, r, h0, _, _⟩ | ⟨h0, hstep⟩ | ⟨h0, hstep⟩ <;> rw [h0]
    · intro _ _; rfl
    · exact h
    · exact fun _ _ => h (by rw [hstep]; decide) (by rw [hstep]; decide)
    · exact fun _ _ => h (by rw [hstep]; decide) (by rw [hstep]; decide)
    · exact fun _ _ => h (by rw [hstep]; decide) (by rw [hstep]; decide)
    · exact fun _ _ => h (by rw [hstep]; decide) (by rw [hstep]; decide)
    · exact fun _ _ => h (by rw [hstep]; decide) (by rw [hstep]; decide)
    · exact fun hA _ => absurd rfl hA
    · exact fun hA _ => absurd hstep hA
    · exact fun _ hC => absurd rfl hC

/-- Once a session id is stored, any non-restart message leaves the same
session id stored. -/
theorem session_preserved (env : Env) (now : Nat) (text : String)
    (s : ConversationStateData) (sid : String)
    (hinv : SessInv (some s)) (hsid : s.session_id = some sid)
    (hr : pyStrip (pyLower text) ∉ RESTART_COMMANDS) :
    sessionOf (stepStore env (some s) now text) = some sid := by
  have hAC : s.current_step = .ASSESSMENT ∨ s.current_step = .COMPLETED := by
    by_contra hc
    push_neg at hc
    have hnone := hinv hc.1 hc.2
    rw [hsid] at hnone
    exact Option.noConfusion hnone
  rcases stepStore_some_cases env now text s with
    ⟨_, hrr⟩ | h0 | ⟨h0, hstep⟩ | ⟨_, h0, hstep⟩ | ⟨_, h0, hstep⟩ | ⟨_, h0, hstep⟩
    | ⟨h0, hstep⟩ | ⟨cd, r, h0, _, hstep⟩ | ⟨h0, hstep⟩ | ⟨h0, hstep⟩
  · exact absurd hrr hr
  · rw [h0]; simp [sessionOf, hsid]
  · simp [hstep] at hAC
  · simp [hstep] at hAC
  · simp [hstep] at hAC
  · simp [hstep] at hAC
  · simp [hstep] at hAC
  · rcases hstep with h1 | h1 <;> simp [h1] at hAC
  · rw [h0]; simp [sessionOf, hsid]
  · rw [h0]; simp [sessionOf, hsid]

/-- A stored `session_id` appears only on the transition out of
`ASK_GESTATIONAL`/`ASK_GESTATIONAL_WEEKS` into `ASSESSMENT`, carrying the
id issued by the backend `session/start` call. -/
theorem session_written_on_start (env : Env) (now : Nat) (text : String)
    (s s' : ConversationStateData)
    (h0 : s.session_id = none)
    (h1 : stepStore env (some s) now text = some s')
    (h2 : s'.session_id ≠ none) :
    (s.current_step = .ASK_GESTATIONAL ∨ s.current_step = .ASK_GESTATIONAL_WEEKS)
    ∧ s'.current_step = .ASSESSMENT
    ∧ ∃ r, env.start_session s'.collected_data.child_name s'.collected_data.dob
          s'.collected_data.gestational_weeks (pyOr s'.collected_data.locale "en") = .ok r
        ∧ s'.session_id = some r.session_id := by
  rcases stepStore_some_cases env now text s with
    ⟨he, _⟩ | he | ⟨he, hstep⟩ | ⟨loc, he, hstep⟩ | ⟨nm, he, hstep⟩ | ⟨iso, he, hstep⟩
    | ⟨he, hstep⟩ | ⟨cd, r, he, hok, hstep⟩ | ⟨he, hstep⟩ | ⟨he, hstep⟩ <;>
    rw [he] at h1 <;> injection h1 with h1 <;> subst h1
  · exact absurd rfl h2
  · exact absurd h0 h2
  · exact absurd h0 h2
  · exact absurd h0 h2
  · exact absurd h0 h2
  · exact absurd h0 h2
  · exact absurd h0 h2
  · exact ⟨hstep, rfl, ⟨r, hok, rfl⟩⟩
  · exact absurd h0 h2
  · exact absurd h0 h2

/-- C7: for every reachable stored record, `session_id` is absent before
`ASSESSMENT` is reached; once it holds a value, every non-restart message
leaves the same value stored; and the `none` to `some` transition happens
only when leaving `ASK_GESTATIONAL`/`ASK_GESTATIONAL_WEEKS` into
`ASSESSMENT`, storing the id issued by the backend.  (A restart command
deletes the record and begins a new record life.) -/
theorem claim_C7_session_id_written_once :
    ∀ st, Reachable st →
      SessInv st
      ∧ (∀ s sid env now text, st = some s → s.session_id = some sid →
          pyStrip (pyLower text) ∉ RESTART_COMMANDS →
          sessionOf (stepStore env (some s) now text) = some sid)
      ∧ (∀ s env now text s', st = some s → s.session_id = none →
          stepStore env (some s) now text = some s' → s'.session_id ≠ none →
          (s.current_step = .ASK_GESTATIONAL ∨ s.current_step = .ASK_GESTATIONAL_WEEKS)
          ∧ s'.current_step = .ASSESSMENT
          ∧ ∃ r, env.start_session s'.collected_data.child_name s'.collected_data.dob
                s'.collected_data.gestational_weeks (pyOr s'.collected_data.locale "en")
                  = .ok r
              ∧ s'.session_id = some r.session_id) := by
  intro st hst
  have hinv : SessInv st := by
    induction hst with
    | init => trivial
    | step env now text h ih => exact sessInv_step env now text _ ih
  refine ⟨hinv, ?_, ?_⟩
  · intro s sid env now text hsome hsid hr
    exact session_preserved env now text s sid (hsome ▸ hinv) hsid hr
  · intro s env now text s' _ h0 h1 h2
    exact session_written_on_start env now text s s' h0 h1 h2

/-- C7 witness: a concrete conversation reaches `ASSESSMENT` with session
id `"sid-1"`, and answering a question leaves that id stored. -/
theorem claim_C7_session_id_written_once_witness :
    sessionOf (stepStore EnvOk (some W5) 0 "yes") = some "sid-1" := by
  have h1 : Reachable (some W1) := by
    have h := Reachable.step EnvOk 0 "hi" Reachable.init
    rwa [(by decide : stepStore EnvOk none 0 "hi" = some W1)] at h
  have h2 : Reachable (some W2) := by
    have h := Reachable.step EnvOk 0 "English" h1
    rwa [(by decide : stepStore EnvOk (some W1) 0 "English" = some W2)] at h
  have h3 : Reachable (some W3) := by
    have h := Reachable.step EnvOk 0 "Sia" h2
    rwa [(by decide : stepStore EnvOk (some W2) 0 "Sia" = some W3)] at h
  have h4 : Reachable (some W4) := by
    have h := Reachable.step EnvOk 0 "15/03/2024" h3
    rwa [(by decide : stepStore EnvOk (some W3) 0 "15/03/2024" = some W4)] at h
  have h5 : Reachable (some W5) := by
    have h := Reachable.step EnvOk 0 "no" h4
    rwa [(by decide : stepStore EnvOk (some W4) 0 "no" = some W5)] at h
  exact (claim_C7_session_id_written_once (some W5) h5).2.1 W5 "sid-1" EnvOk 0 "yes"
    rfl rfl (by decide)

/-! ## Claim C1: steps never regress -/

/-- C1: for every prior stored record (or none) and every inbound message,
each record persisted by `handle_message`, compared with the previously
stored one, either advances `current_step` strictly forward in the
declared stage order, leaves it unchanged, or is the reset to `NEW`
performed by a restart command (which is immediately followed by the
forward `NEW` to `LANGUAGE_SELECT` welcome write); no write ever moves
the step backward otherwise. -/
theorem claim_C1_steps_never_regress (env : Env) (store : Option ConversationStateData)
    (now : Nat) (text : String) :
    chainOK (store.map fun st => st.current_step)
      (stepsWritten (handle_message env store now text)) = true := by
  by_cases hr : pyStrip (pyLower text) ∈ RESTART_COMMANDS
  · rw [handle_message_restart_eq env store now text hr]
    cases store <;>
      simp [stepsWritten, chainOK, fresh_state, ConversationState.rank]
  · by_cases hh : pyStrip (pyLower text) ∈ HELP_COMMANDS
    · rw [handle_message_help_eq env store now text hr hh]
      cases store <;> simp [stepsWritten, chainOK]
    · cases store with
      | none =>
        rw [handle_message_none_eq env now text hr hh]
        simp [dispatch, fresh_state, handle_new_user, save_state, stepsWritten,
          chainOK, ConversationState.rank]
      | some s =>
        rw [handle_message_dispatch_eq env s now text hr hh]
        cases hstep : s.current_step with
        | NEW =>
          simp [dispatch, hstep, handle_new_user, save_state, stepsWritten,
            chainOK, ConversationState.rank]
        | LANGUAGE_SELECT =>
          simp [dispatch, hstep, handle_language_selection, save_state, stepsWritten,
            chainOK, ConversationState.rank]
        | ASK_NAME =>
          simp [dispatch, hstep, handle_name_input, save_state, stepsWritten,
            chainOK, ConversationState.rank]
        | ASK_DOB =>
          cases hpd : parse_date env.dateutil_parse text with
          | none =>
            simp [dispatch, hstep, handle_dob_input, hpd, stepsWritten, chainOK]
          | some iso =>
            simp [dispatch, hstep, handle_dob_input, hpd, save_state, stepsWritten,
              chainOK, ConversationState.rank]
        | ASK_GESTATIONAL =>
          by_cases hy : pyStrip (pyLower text) ∈ YES_PHRASES
          · simp [dispatch, hstep, handle_gestational_question, hy, save_state,
              stepsWritten, chainOK, ConversationState.rank]
          · rcases start_assessment_eq env now
                { s with collected_data := { s.collected_data with
                    is_premature := some false, gestational_weeks := none } } with
              ⟨_, heq⟩ | ⟨r, _, ⟨_, heq⟩ | ⟨am, _, heq⟩⟩ <;>
              simp only [hstep] at heq <;>
              simp [dispatch, hstep, handle_gestational_question, hy, heq,
                stepsWritten, chainOK, ConversationState.rank]
        | ASK_GESTATIONAL_WEEKS =>
          cases hew : extract_weeks text with
          | none =>
            simp [dispatch, hstep, handle_gestational_weeks, hew, stepsWritten, chainOK]
          | some w =>
            by_cases hw : (24 ≤ w && w ≤ 42) = true
            · rcases start_assessment_eq env now
                  { s with collected_data :=
                      { s.collected_data with gestational_weeks := some w } } with
                ⟨_, heq⟩ | ⟨r, _, ⟨_, heq⟩ | ⟨am, _, heq⟩⟩ <;>
                simp only [hstep] at heq <;>
                simp [dispatch, hstep, handle_gestational_weeks, hew, hw, heq,
                  stepsWritten, chainOK, ConversationState.rank]
            · simp [dispatch, hstep, handle_gestational_weeks, hew, hw,
                stepsWritten, chainOK]
        | ASSESSMENT =>
          cases hac : resolveAnswerCode (pyStrip (pyLower text)) with
          | none =>
            simp [dispatch, hstep, handle_assessment_answer, hac, stepsWritten, chainOK]
          | some code =>
            cases hq : env.query_assistant s.session_id text (some code) with
            | error e =>
              simp [dispatch, hstep, handle_assessment_answer, hac, hq,
                stepsWritten, chainOK]
            | ok am =>
              cases ham : am.is_final with
              | false =>
                simp [dispatch, hstep, handle_assessment_answer, hac, hq, ham,
                  save_state, stepsWritten, chainOK, ConversationState.rank]
              | true =>
                rcases complete_assessment_eq env now s with
                  ⟨_, heq⟩ | ⟨c, _, ⟨_, heq⟩ | ⟨res, _, heq⟩⟩ <;>
                  simp [dispatch, hstep, handle_assessment_answer, hac, hq, ham, heq,
                    stepsWritten, chainOK, ConversationState.rank]
        | COMPLETED =>
          simp [dispatch, hstep, handle_completed_session, stepsWritten, chainOK]
        | ABANDONED =>
          simp [dispatch, hstep, stepsWritten, chainOK]

/-! ## Claim C2: restart is idempotent in the prior state -/

/-- C2: on a message whose lower-cased, stripped text is a restart phrase
(`"restart"`, `"start over"`, `"new"`), `handle_message` performs one
fixed effect trace whatever was stored before (idempotence in the prior
state): the record is deleted, re-created at `NEW` with an empty collected
record, and then the `NEW` handler runs (welcome sent, step advanced to
`LANGUAGE_SELECT`). -/
theorem claim_C2_restart_idempotent (env : Env) (store : Option ConversationStateData)
    (now : Nat) (text : String)
    (h : pyStrip (pyLower text) ∈ RESTART_COMMANDS) :
    handle_message env store now text
      = [.delState, .setState (fresh_state now), .send .welcome,
         .setState { fresh_state now with current_step := .LANGUAGE_SELECT }]
    ∧ (∀ prior : Option ConversationStateData,
        handle_message env store now text = handle_message env prior now text) :=
  ⟨handle_message_restart_eq env store now text h,
   fun prior => (handle_message_restart_eq env store now text h).trans
     (handle_message_restart_eq env prior now text h).symm⟩

/-- C2 witness: `" Restart "` from a completed conversation and `"new"`
from an unseen phone produce the identical fixed trace. -/
theorem claim_C2_restart_idempotent_witness :
    handle_message EnvFail
        (some { current_step := .COMPLETED, session_id := some "sid-9",
                questions_asked := 5, last_message_at := 1 }) 7 " Restart "
      = [.delState, .setState (fresh_state 7), .send .welcome,
         .setState { fresh_state 7 with current_step := .LANGUAGE_SELECT }]
    ∧ handle_message EnvFail none 7 "new"
      = [.delState, .setState (fresh_state 7), .send .welcome,
         .setState { fresh_state 7 with current_step := .LANGUAGE_SELECT }] :=
  ⟨(claim_C2_restart_idempotent EnvFail
      (some { current_step := .COMPLETED, session_id := some "sid-9",
              questions_asked := 5, last_message_at := 1 }) 7 " Restart "
      (by decide)).1,
   (claim_C2_restart_idempotent EnvFail none 7 "new" (by decide)).1⟩

/-! ## Claim C3: backend failures send the error message and write nothing -/

theorem start_assessment_fail_no_write (env : Env) (now : Nat)
    (s₀ : ConversationStateData) (hfail : start_sequence_fails env s₀ = true) :
    Effect.send .errorMessage ∈ start_assessment env now s₀
    ∧ writesNothing (start_assessment env now s₀) = true := by
  rcases start_assessment_eq env now s₀ with ⟨hs, heq⟩ | ⟨r, hs, ⟨hq, heq⟩ | ⟨am, hq, heq⟩⟩
  · rw [heq]; exact ⟨by simp, by simp [writesNothing]⟩
  · rw [heq]; exact ⟨by simp, by simp [writesNothing]⟩
  · simp [start_sequence_fails, hs, hq] at hfail

theorem complete_assessment_fail_no_write (env : Env) (now : Nat)
    (s₀ : ConversationStateData) (hfail : complete_sequence_fails env s₀ = true) :
    Effect.send .errorMessage ∈ complete_assessment env now s₀
    ∧ writesNothing (complete_assessment env now s₀) = true := by
  rcases complete_assessment_eq env now s₀ with
    ⟨hc, heq⟩ | ⟨c, hc, ⟨hg, heq⟩ | ⟨res, hg, heq⟩⟩
  · rw [heq]; exact ⟨by simp, by simp [writesNothing]⟩
  · rw [heq]; exact ⟨by simp, by simp [writesNothing]⟩
  · simp [complete_sequence_fails, hc, hg] at hfail

/-- C3: whenever a backend call of the start-assessment sequence raises,
`start_assessment` sends the generic error message and performs no store
write; likewise for the completion sequence.  Consequently, through
`handle_message`, a failed start from `ASK_GESTATIONAL` or
`ASK_GESTATIONAL_WEEKS` leaves the stored record unchanged (step still
before `ASSESSMENT`), and a failed completion leaves the stored record
unchanged at `ASSESSMENT`. -/
theorem claim_C3_backend_failure_state_unchanged (env : Env) (now : Nat)
    (s : ConversationStateData) :
    (start_sequence_fails env s = true →
      Effect.send .errorMessage ∈ start_assessment env now s
      ∧ writesNothing (start_assessment env now s) = true)
    ∧ (complete_sequence_fails env s = true →
      Effect.send .errorMessage ∈ complete_assessment env now s
      ∧ writesNothing (complete_assessment env now s) = true)
    ∧ (∀ text, s.current_step = .ASK_GESTATIONAL →
        pyStrip (pyLower text) ∉ RESTART_COMMANDS →
        pyStrip (pyLower text) ∉ HELP_COMMANDS →
        pyStrip (pyLower text) ∉ YES_PHRASES →
        start_sequence_fails env { s with collected_data := { s.collected_data with
          is_premature := some false, gestational_weeks := none } } = true →
        stepStore env (some s) now text = some s)
    ∧ (∀ text w, s.current_step = .ASK_GESTATIONAL_WEEKS →
        pyStrip (pyLower text) ∉ RESTART_COMMANDS →
        pyStrip (pyLower text) ∉ HELP_COMMANDS →
        extract_weeks text = some w → (24 ≤ w && w ≤ 42) = true →
        start_sequence_fails env { s with collected_data := { s.collected_data with
          gestational_weeks := some w } } = true →
        stepStore env (some s) now text = some s)
    ∧ (∀ text code am, s.current_step = .ASSESSMENT →
        pyStrip (pyLower text) ∉ RESTART_COMMANDS →
        pyStrip (pyLower text) ∉ HELP_COMMANDS →
        resolveAnswerCode (pyStrip (pyLower text)) = some code →
        env.query_assistant s.session_id text (some code) = .ok am →
        am.is_final = true →
        complete_sequence_fails env s = true →
        stepStore env (some s) now text = some s) := by
  refine ⟨start_assessment_fail_no_write env now s,
          complete_assessment_fail_no_write env now s, ?_, ?_, ?_⟩
  · intro text hstep hrr hhh hy hfail
    have htr : handle_message env (some s) now text
        = start_assessment env now { s with collected_data := { s.collected_data with
            is_premature := some false, gestational_weeks := none } } := by
      simp [handle_message_dispatch_eq env s now text hrr hhh, dispatch, hstep,
        handle_gestational_question, hy]
    simp only [stepStore]
    rw [htr]
    exact applyEffects_writesNothing (some s)
      (start_assessment_fail_no_write env now _ hfail).2
  · intro text w hstep hrr hhh hew hw hfail
    have htr : handle_message env (some s) now text
        = start_assessment env now { s with collected_data := { s.collected_data with
            gestational_weeks := some w } } := by
      simp [handle_message_dispatch_eq env s now text hrr hhh, dispatch, hstep,
        handle_gestational_weeks, hew, hw]
    simp only [stepStore]
    rw [htr]
    exact applyEffects_writesNothing (some s)
      (start_assessment_fail_no_write env now _ hfail).2
  · intro text code am hstep hrr hhh hac hq ham hfail
    have htr : handle_message env (some s) now text
        = .callQueryAssistant s.session_id text (some code)
          :: complete_assessment env now s := by
      simp [handle_message_dispatch_eq env s now text hrr hhh, dispatch, hstep,
        handle_assessment_answer, hac, hq, ham]
    have hw := (complete_assessment_fail_no_write env now s hfail).2
    have hwc : writesNothing (Effect.callQueryAssistant s.session_id text (some code)
        :: complete_assessment env now s) = true := by
      simp [writesNothing] at hw ⊢
      exact hw
    simp only [stepStore]
    rw [htr]
    exact applyEffects_writesNothing (some s) hwc

/-- C3 witness: with a backend whose `session/start` raises, the message
`"no"` at `ASK_GESTATIONAL` leaves the stored record unchanged; with a
backend whose `session/close` raises after a final answer, the message
`"yes"` at `ASSESSMENT` leaves the stored record unchanged. -/
theorem claim_C3_backend_failure_state_unchanged_witness :
    stepStore EnvFail
        (some { current_step := .ASK_GESTATIONAL, last_message_at := 1 }) 2 "no"
      = some { current_step := .ASK_GESTATIONAL, last_message_at := 1 }
    ∧ stepStore EnvCloseFail
        (some { current_step := .ASSESSMENT, session_id := some "sid-1",
                last_message_at := 1 }) 2 "yes"
      = some { current_step := .ASSESSMENT, session_id := some "sid-1",
               last_message_at := 1 } :=
  ⟨(claim_C3_backend_failure_state_unchanged EnvFail 2
      { current_step := .ASK_GESTATIONAL, last_message_at := 1 }).2.2.1 "no"
      rfl (by decide) (by decide) (by decide) rfl,
   (claim_C3_backend_failure_state_unchanged EnvCloseFail 2
      { current_step := .ASSESSMENT, session_id := some "sid-1",
        last_message_at := 1 }).2.2.2.2 "yes" "yes"
      { content := "bye", is_final := true } rfl (by decide) (by decide)
      (by decide) rfl rfl rfl⟩

/-! ## Claim C8: gestational weeks handling -/

/-- C8: at `ASK_GESTATIONAL_WEEKS` the handler takes the first run of
decimal digits anywhere in the text; a value `w` with `24 ≤ w ≤ 42` is
stored as `gestational_weeks` and the assessment is started (the
`session/start` call carries `some w`), while no digits or an
out-of-range value re-sends the range guidance and performs no store
write; `"34"` extracts as `34`, `"20"` as the out-of-range `20`, `"abc"`
as nothing. -/
theorem claim_C8_gestational_weeks (env : Env) (now : Nat)
    (s : ConversationStateData) (text : String) :
    (extract_weeks "34" = some 34 ∧ extract_weeks "20" = some 20
      ∧ extract_weeks "abc" = none)
    ∧ (∀ w, extract_weeks text = some w → (24 ≤ w && w ≤ 42) = true →
        handle_gestational_weeks env now text s
          = start_assessment env now { s with collected_data :=
              { s.collected_data with gestational_weeks := some w } }
        ∧ (start_assessment env now { s with collected_data :=
              { s.collected_data with gestational_weeks := some w } }).head?
            = some (.callStartSession s.collected_data.child_name s.collected_data.dob
                (some w) (pyOr s.collected_data.locale "en")))
    ∧ (extract_weeks text = none →
        handle_gestational_weeks env now text s = [.send .invalidGestationalWeeks])
    ∧ (∀ w, extract_weeks text = some w → (24 ≤ w && w ≤ 42) = false →
        handle_gestational_weeks env now text s = [.send .invalidGestationalWeeks])
    ∧ (s.current_step = .ASK_GESTATIONAL_WEEKS →
        pyStrip (pyLower text) ∉ RESTART_COMMANDS →
        pyStrip (pyLower text) ∉ HELP_COMMANDS →
        handle_message env (some s) now text = handle_gestational_weeks env now text s) := by
  refine ⟨⟨by decide, by decide, by decide⟩, ?_, ?_, ?_, ?_⟩
  · intro w hew hw
    constructor
    · simp [handle_gestational_weeks, hew, hw]
    · simp [start_assessment]
  · intro h
    simp [handle_gestational_weeks, h]
  · intro w hew hw
    simp [handle_gestational_weeks, hew, hw]
  · intro hstep hrr hhh
    simp [handle_message_dispatch_eq env s now text hrr hhh, dispatch, hstep]

/-- C8 witness: from a concrete `ASK_GESTATIONAL_WEEKS` record, `"34"` is
accepted (assessment started with weeks 34), `"20"` and `"abc"` are
rejected with the range guidance. -/
theorem claim_C8_gestational_weeks_witness :
    handle_gestational_weeks EnvFail 1 "34"
        { current_step := .ASK_GESTATIONAL_WEEKS, last_message_at := 0 }
      = start_assessment EnvFail 1
          { current_step := .ASK_GESTATIONAL_WEEKS,
            collected_data := { gestational_weeks := some 34 }, last_message_at := 0 }
    ∧ handle_gestational_weeks EnvFail 1 "20"
        { current_step := .ASK_GESTATIONAL_WEEKS, last_message_at := 0 }
      = [.send .invalidGestationalWeeks]
    ∧ handle_gestational_weeks EnvFail 1 "abc"
        { current_step := .ASK_GESTATIONAL_WEEKS, last_message_at := 0 }
      = [.send .invalidGestationalWeeks]
    ∧ handle_message EnvFail
        (some { current_step := .ASK_GESTATIONAL_WEEKS, last_message_at := 0 }) 1 "34"
      = handle_gestational_weeks EnvFail 1 "34"
          { current_step := .ASK_GESTATIONAL_WEEKS, last_message_at := 0 } :=
  ⟨((claim_C8_gestational_weeks EnvFail 1
      { current_step := .ASK_GESTATIONAL_WEEKS, last_message_at := 0 } "34").2.1 34
      (by decide) (by decide)).1,
   (claim_C8_gestational_weeks EnvFail 1
      { current_step := .ASK_GESTATIONAL_WEEKS, last_message_at := 0 } "20").2.2.2.1 20
      (by decide) (by decide),
   (claim_C8_gestational_weeks EnvFail 1
      { current_step := .ASK_GESTATIONAL_WEEKS, last_message_at := 0 } "abc").2.2.1
      (by decide),
   (claim_C8_gestational_weeks EnvFail 1
      { current_step := .ASK_GESTATIONAL_WEEKS, last_message_at := 0 } "34").2.2.2.2
      rfl (by decide) (by decide)⟩

/-! ## Claim C9: date parsing -/

/-- C9: `parse_date` tries `%d/%m/%Y`, `%d-%m-%Y`, `%d.%m.%Y`, `%Y-%m-%d`
in that priority order on the stripped input and renders the winner as an
ISO date; only when all four fail is the day-first natural-language
fallback (external `dateutil`) consulted.  `"15/03/2024"` and
`"2024-03-15"` both parse to `"2024-03-15"` whatever the fallback does;
when the fallback rejects `"not-a-date"`, parsing fails and the
`ASK_DOB` handler only re-prompts, leaving the stored record unchanged. -/
theorem claim_C9_date_parsing (env : Env) (now : Nat) (s : ConversationStateData) :
    (∀ du : String → Option Date, parse_date du "15/03/2024" = some "2024-03-15")
    ∧ (∀ du : String → Option Date, parse_date du "2024-03-15" = some "2024-03-15")
    ∧ (∀ (du : String → Option Date) ds d, matchDMY '/' (pyStrip ds) = some d →
        parse_date du ds = some (renderISO d))
    ∧ (∀ (du : String → Option Date) ds, matchDMY '/' (pyStrip ds) = none →
        matchDMY '-' (pyStrip ds) = none → matchDMY '.' (pyStrip ds) = none →
        matchYMD '-' (pyStrip ds) = none →
        parse_date du ds = (du ds).map renderISO)
    ∧ (env.dateutil_parse "not-a-date" = none →
        parse_date env.dateutil_parse "not-a-date" = none
        ∧ (s.current_step = .ASK_DOB →
            handle_message env (some s) now "not-a-date" = [.send .invalidDob]
            ∧ stepStore env (some s) now "not-a-date" = some s)) := by
  refine ⟨fun du => rfl, fun du => rfl, ?_, ?_, ?_⟩
  · intro du ds d h
    simp [parse_date, try_formats, h]
  · intro du ds h1 h2 h3 h4
    simp [parse_date, try_formats, h1, h2, h3, h4]
  · intro hdu
    have h : try_formats (pyStrip "not-a-date") = none := by decide
    have hpd : parse_date env.dateutil_parse "not-a-date" = none := by
      simp [parse_date, h, hdu]
    refine ⟨hpd, ?_⟩
    intro hstep
    have htr : handle_message env (some s) now "not-a-date" = [.send .invalidDob] := by
      simp [handle_message_dispatch_eq env s now "not-a-date" (by decide) (by decide),
        dispatch, hstep, handle_dob_input, hpd]
    refine ⟨htr, ?_⟩
    simp only [stepStore]
    rw [htr]
    simp [applyEffects, applyEffect]

/-- C9 witness: with the fallback that rejects everything (as `dateutil`
does on `"not-a-date"`), parsing fails and a concrete `ASK_DOB` record
only receives the format guidance. -/
theorem claim_C9_date_parsing_witness :
    parse_date EnvFail.dateutil_parse "not-a-date" = none
    ∧ handle_message EnvFail
        (some { current_step := .ASK_DOB, last_message_at := 0 }) 1 "not-a-date"
      = [.send .invalidDob] :=
  ⟨((claim_C9_date_parsing EnvFail 1
      { current_step := .ASK_DOB, last_message_at := 0 }).2.2.2.2 rfl).1,
   (((claim_C9_date_parsing EnvFail 1
      { current_step := .ASK_DOB, last_message_at := 0 }).2.2.2.2 rfl).2 rfl).1⟩
